import Mathlib

/-!
Bilibili Subtitle Free Drag: the drag-and-clamp positioning engine.

A shallow embedding of `src/main.js` (user script, v2.1): the reset routine
`resetSubtitlePosition`, the attachment routine `makeSubtitleDraggable` and the
three handlers of its closure (`onmousedown`, `onMouseMove`, `onMouseUp`).

Modelling conventions.

* Pointer and rectangle coordinates are `Int` (whole CSS pixels); element and
  container sizes (`offsetWidth`, `offsetHeight`, `clientWidth`, `clientHeight`)
  are `Nat`, as the DOM reports them as non-negative integers.  The script only
  adds, subtracts, negates and compares these numbers.
* An inline style property is a `CssValue`: the empty string, a number followed
  by `px`, or a keyword such as `none` or `auto`.
* Everything the handlers read from the layout engine or the event (pointer
  position, bounding rectangles, the bounds container and the sizes) is carried
  by the event record, one fresh reading per event.
* `console.log`, `preventDefault` and `stopPropagation` leave the modelled state
  untouched and are omitted.
-/

namespace SubtitleDrag

/-- An inline style value as the script writes it. -/
inductive CssValue where
  /-- The empty string: the property is unset. -/
  | unset : CssValue
  /-- The string made of a number followed by `px`. -/
  | px (v : Int) : CssValue
  /-- A CSS keyword (`none`, `auto`). -/
  | keyword (s : String) : CssValue
  deriving DecidableEq, Repr

/-- The four inline style properties of the subtitle element the script writes. -/
structure Style where
  left : CssValue
  top : CssValue
  transform : CssValue
  bottom : CssValue
  deriving DecidableEq, Repr

/-- The part of `getBoundingClientRect()` the script reads. -/
structure Rect where
  left : Int
  top : Int
  deriving DecidableEq, Repr

/-- The bounds container found by `closest('.bpx-player-video-wrap')`. -/
structure PlayerContainer where
  clientWidth : Nat
  clientHeight : Nat
  deriving DecidableEq, Repr

/-- A `mousedown` event on the subtitle element, with the geometry the handler reads. -/
structure MouseDownEvent where
  button : Nat
  clientX : Int
  clientY : Int
  /-- Value of `subtitleElement.getBoundingClientRect()`. -/
  rect : Rect
  /-- Bounding rectangle of `subtitleElement.offsetParent`; `none` when `offsetParent` is `null`. -/
  offsetParent : Option Rect
  deriving DecidableEq, Repr

/-- A `mousemove` event on the document, with the geometry the handler reads. -/
structure MouseMoveEvent where
  clientX : Int
  clientY : Int
  /-- Result of `subtitleElement.closest('.bpx-player-video-wrap')`. -/
  playerContainer : Option PlayerContainer
  offsetWidth : Nat
  offsetHeight : Nat
  deriving DecidableEq, Repr

/-- The variables captured by the handlers that one call of `makeSubtitleDraggable`
creates (source lines 75-77), together with whether its `onMouseMove` and `onMouseUp`
are currently registered on `document`.  The four anchors are declared without a
value in the source and are assigned by `onmousedown` before `onMouseMove` can be
registered; they start at `0` here. -/
structure Closure where
  isDragging : Bool
  initialMouseX : Int
  initialMouseY : Int
  initialElemLeft : Int
  initialElemTop : Int
  mousemoveRegistered : Bool
  mouseupRegistered : Bool
  deriving DecidableEq, Repr

/-- The subtitle element: the `dataset.isDraggable` entry, the inline style and the
`onmousedown` property, the latter represented by the closure its handler captures. -/
structure Element where
  isDraggable : Option String
  style : Style
  onmousedown : Option Closure
  deriving DecidableEq, Repr

/-- JavaScript truthiness of a `dataset` entry: present and not the empty string. -/
def truthy : Option String → Bool
  | none => false
  | some s => s != ""

/-- Source lines 31-43.  The argument is the result of
`document.querySelector('.bili-subtitle-x-subtitle-panel-position')`. -/
def resetSubtitlePosition (subtitleElement : Option Element) : Option Element :=
  match subtitleElement with
  | some el =>
    let style := { el.style with left := CssValue.unset }
    let style := { style with top := CssValue.unset }
    let style := { style with transform := CssValue.unset }
    let style := { style with bottom := CssValue.unset }
    some { el with style := style }
  | none => none

/-- The closure variables right after `makeSubtitleDraggable` declared them (lines 75-77). -/
def Closure.fresh : Closure :=
  { isDragging := false
    initialMouseX := 0
    initialMouseY := 0
    initialElemLeft := 0
    initialElemTop := 0
    mousemoveRegistered := false
    mouseupRegistered := false }

/-- Source lines 71-79 and 168: the guard on the attached flag, the flag write, the
closure variables and the assignment of the `onmousedown` property.  The script sets
the flag and the handler together and never clears either, so the assignment only ever
fills an empty property; a handler it would overwrite is forgotten here. -/
def makeSubtitleDraggable (subtitleElement : Element) : Element :=
  if truthy subtitleElement.isDraggable then subtitleElement
  else
    { subtitleElement with
      isDraggable := some "true"
      onmousedown := some Closure.fresh }

/-- Source lines 79-107, the press handler.  When `offsetParent` is `null`, line 94
throws: the three assignments before it persist and nothing after it runs. -/
def onmousedown (c : Closure) (style : Style) (e : MouseDownEvent) : Closure × Style :=
  if e.button ≠ 0 then (c, style)
  else
    let c := { c with isDragging := true, initialMouseX := e.clientX, initialMouseY := e.clientY }
    let rect := e.rect
    match e.offsetParent with
    | none => (c, style)
    | some parentRect =>
      let c := { c with initialElemLeft := rect.left - parentRect.left,
                        initialElemTop := rect.top - parentRect.top }
      let style := { style with transform := CssValue.keyword "none" }
      let style := { style with bottom := CssValue.keyword "auto" }
      let style := { style with left := CssValue.px c.initialElemLeft }
      let style := { style with top := CssValue.px c.initialElemTop }
      ({ c with mousemoveRegistered := true, mouseupRegistered := true }, style)

/-- Source lines 109-160, the move handler: the style it leaves behind.  The two
rectangles read at lines 121-122 are never used and are left out. -/
def onMouseMove (c : Closure) (style : Style) (e : MouseMoveEvent) : Style :=
  if !c.isDragging then style
  else
    let deltaX := e.clientX - c.initialMouseX
    let deltaY := e.clientY - c.initialMouseY
    let newLeft := c.initialElemLeft + deltaX
    let newTop := c.initialElemTop + deltaY
    let clamped : Int × Int :=
      match e.playerContainer with
      | some playerContainer =>
        let playerWidth : Int := playerContainer.clientWidth
        let playerHeight : Int := playerContainer.clientHeight
        let subtitleWidth : Int := e.offsetWidth
        let subtitleHeight : Int := e.offsetHeight
        let newLeft :=
          if subtitleWidth ≥ playerWidth then
            let newLeft := if newLeft < 0 then 0 else newLeft
            if newLeft + subtitleWidth > playerWidth then playerWidth - subtitleWidth
            else newLeft
          else
            let minVisibleWidth : Int := 50
            let newLeft :=
              if newLeft > playerWidth - minVisibleWidth then playerWidth - minVisibleWidth
              else newLeft
            if newLeft < -(subtitleWidth - minVisibleWidth) then -(subtitleWidth - minVisibleWidth)
            else newLeft
        let minVisibleHeight : Int := 20
        let newTop :=
          if newTop > playerHeight - minVisibleHeight then playerHeight - minVisibleHeight
          else newTop
        let newTop :=
          if newTop < -(subtitleHeight - minVisibleHeight) then -(subtitleHeight - minVisibleHeight)
          else newTop
        (newLeft, newTop)
      | none => (newLeft, newTop)
    let style := { style with left := CssValue.px clamped.1 }
    { style with top := CssValue.px clamped.2 }

/-- Source lines 162-167, the release handler. -/
def onMouseUp (c : Closure) : Closure :=
  if !c.isDragging then c
  else { c with isDragging := false, mousemoveRegistered := false, mouseupRegistered := false }

/-- The events the drag engine reacts to: `mousedown` reaches the element,
`mousemove` and `mouseup` reach the document. -/
inductive Event where
  | mousedown (e : MouseDownEvent) : Event
  | mousemove (e : MouseMoveEvent) : Event
  | mouseup : Event
  deriving DecidableEq, Repr

/-- Delivery of one event: the element's `onmousedown` property is called on a
press; the document calls `onMouseMove` and `onMouseUp` only while they are registered. -/
def dispatch (el : Element) : Event → Element
  | Event.mousedown e =>
    match el.onmousedown with
    | some c =>
      let r := onmousedown c el.style e
      { el with onmousedown := some r.1, style := r.2 }
    | none => el
  | Event.mousemove e =>
    match el.onmousedown with
    | some c => if c.mousemoveRegistered then { el with style := onMouseMove c el.style e } else el
    | none => el
  | Event.mouseup =>
    match el.onmousedown with
    | some c => if c.mouseupRegistered then { el with onmousedown := some (onMouseUp c) } else el
    | none => el

/-- Delivery of a finite sequence of events, in order. -/
def run (el : Element) (events : List Event) : Element :=
  events.foldl dispatch el

/-- The proposed horizontal coordinate of a move: `initialElemLeft + deltaX` (line 114). -/
def proposedLeft (c : Closure) (e : MouseMoveEvent) : Int :=
  c.initialElemLeft + (e.clientX - c.initialMouseX)

/-- The proposed vertical coordinate of a move: `initialElemTop + deltaY` (line 115). -/
def proposedTop (c : Closure) (e : MouseMoveEvent) : Int :=
  c.initialElemTop + (e.clientY - c.initialMouseY)

/-- Length of the part of the interval `[left, left + elementW]` that lies inside the
container's horizontal extent `[0, containerW]`. -/
def visibleWidth (left : Int) (elementW containerW : Nat) : Int :=
  max 0 (min (left + elementW) containerW - max left 0)

/-- One step of the history reading of a session: a primary-button press opens it, a
release closes it, any other event leaves it as it was. -/
def sessionStep (isOpen : Bool) : Event → Bool
  | Event.mousedown e => if e.button = 0 then true else isOpen
  | Event.mousemove _ => isOpen
  | Event.mouseup => false

/-- Whether, after a sequence of events, a primary-button press has happened with no
release after it: the history reading of an active session. -/
def sessionOpen (events : List Event) : Bool :=
  events.foldl sessionStep false

/-- The element's drag session handles moves: its handler is registered on the
document and `isDragging` is set. -/
def sessionActive (el : Element) : Bool :=
  match el.onmousedown with
  | some c => c.isDragging && c.mousemoveRegistered
  | none => false

/-! ## Sample inputs -/

/-- Closure of a session whose press found the pointer at `(0, 0)` and the element at
`(left, top)`: a later move to `(x, y)` proposes `(left + x, top + y)`. -/
def Closure.pressedAt (left top : Int) : Closure :=
  { isDragging := true
    initialMouseX := 0
    initialMouseY := 0
    initialElemLeft := left
    initialElemTop := top
    mousemoveRegistered := true
    mouseupRegistered := true }

/-- An inline style with all four properties unset. -/
def Style.cleared : Style :=
  { left := CssValue.unset, top := CssValue.unset,
    transform := CssValue.unset, bottom := CssValue.unset }

/-- A move of the pointer back to `(0, 0)` with the given container and element size. -/
def MouseMoveEvent.still (pc : Option PlayerContainer) (w h : Nat) : MouseMoveEvent :=
  { clientX := 0, clientY := 0, playerContainer := pc, offsetWidth := w, offsetHeight := h }

/-- A subtitle element the script has not touched yet: no attached flag, no press
handler, the given inline style. -/
def Element.untouched (style : Style) : Element :=
  { isDraggable := none, style := style, onmousedown := none }

/-- A primary-button press at `(x, y)` on an element whose bounding rectangle starts at
`(left, top)` inside an offset parent whose rectangle starts at `(0, 0)`. -/
def MouseDownEvent.primary (x y left top : Int) : MouseDownEvent :=
  { button := 0, clientX := x, clientY := y, rect := ⟨left, top⟩, offsetParent := some ⟨0, 0⟩ }

end SubtitleDrag

namespace SubtitleDrag

/-! ## The clamp policy inside `onMouseMove` -/

/-- C1, as stated, fails for an element narrower than 50: with `elementW = 30`,
`containerW = 800` and proposed left `0`, `onMouseMove` writes left `20`, and only 30
units of the element overlap the container. -/
theorem flexible_narrow_element_shows_less_than_50 :
    (30 : Nat) < 800 ∧
    (onMouseMove (Closure.pressedAt 0 0) Style.cleared
        (MouseMoveEvent.still (some ⟨800, 300⟩) 30 40)).left = CssValue.px 20 ∧
    visibleWidth 20 30 800 = 30 ∧ ¬ (50 ≤ visibleWidth 20 30 800) := by
  decide

/-- C1 (amended): in flexible mode with an element at least 50 wide
(`50 ≤ elementW < containerW`), the left written by `onMouseMove` lies in
`[-(elementW - 50), containerW - 50]` and at least 50 units of the element's width
overlap the container's horizontal extent. -/
theorem flexible_min_visible (c : Closure) (style : Style) (e : MouseMoveEvent)
    (pc : PlayerContainer) (hdrag : c.isDragging = true)
    (hpc : e.playerContainer = some pc) (h50 : 50 ≤ e.offsetWidth)
    (hlt : e.offsetWidth < pc.clientWidth) :
    ∃ v : Int,
      (onMouseMove c style e).left = CssValue.px v ∧
      -((e.offsetWidth : Int) - 50) ≤ v ∧ v ≤ (pc.clientWidth : Int) - 50 ∧
      50 ≤ visibleWidth v e.offsetWidth pc.clientWidth := by
  unfold onMouseMove
  simp only [hdrag, hpc, Bool.not_true, Bool.false_eq_true, if_false]
  refine ⟨_, rfl, ?_⟩
  unfold visibleWidth
  split_ifs <;> omega

/-- Witness for C1: `elementW = 200`, `containerW = 800`, proposed left `1000`. -/
theorem flexible_min_visible_witness :
    (50 ≤ 200 ∧ 200 < 800) ∧
    ∃ v : Int,
      (onMouseMove (Closure.pressedAt 1000 0) Style.cleared
          (MouseMoveEvent.still (some ⟨800, 300⟩) 200 40)).left = CssValue.px v ∧
      -(((200 : Nat) : Int) - 50) ≤ v ∧ v ≤ ((800 : Nat) : Int) - 50 ∧
      50 ≤ visibleWidth v 200 800 :=
  ⟨by decide,
   flexible_min_visible (Closure.pressedAt 1000 0) Style.cleared
     (MouseMoveEvent.still (some ⟨800, 300⟩) 200 40) ⟨800, 300⟩ rfl rfl
     (by decide) (by decide)⟩

/-- The two test vectors of the flexible-mode property: proposed `1000` is written as
`750` and proposed `-1000` as `-150`. -/
theorem flexible_test_vectors :
    (onMouseMove (Closure.pressedAt 1000 0) Style.cleared
        (MouseMoveEvent.still (some ⟨800, 300⟩) 200 40)).left = CssValue.px 750 ∧
    (onMouseMove (Closure.pressedAt (-1000) 0) Style.cleared
        (MouseMoveEvent.still (some ⟨800, 300⟩) 200 40)).left = CssValue.px (-150) := by
  decide

/-- C2, as stated, fails when the two bounds cross: with `elementH = 10`,
`containerH = 20` and proposed top `5` (above the upper bound `0`), `onMouseMove`
writes top `10`, which is neither `containerH - 20 = 0` nor at most that bound. -/
theorem vertical_bounds_cross_for_small_sizes :
    (onMouseMove (Closure.pressedAt 0 5) Style.cleared
        (MouseMoveEvent.still (some ⟨800, 20⟩) 200 10)).top = CssValue.px 10 ∧
    proposedTop (Closure.pressedAt 0 5) (MouseMoveEvent.still (some ⟨800, 20⟩) 200 10)
        > ((20 : Nat) : Int) - 20 ∧
    ¬ ((10 : Int) ≤ ((20 : Nat) : Int) - 20) := by
  decide

/-- C2 (amended): when the container is resolvable and `elementH + containerH ≥ 40`,
the top written by `onMouseMove` lies in `[-(elementH - 20), containerH - 20]`; a
proposed top above the interval yields `containerH - 20`, one below it yields
`-(elementH - 20)`. -/
theorem vertical_clamp (c : Closure) (style : Style) (e : MouseMoveEvent)
    (pc : PlayerContainer) (hdrag : c.isDragging = true)
    (hpc : e.playerContainer = some pc)
    (hsize : 40 ≤ e.offsetHeight + pc.clientHeight) :
    ∃ v : Int,
      (onMouseMove c style e).top = CssValue.px v ∧
      -((e.offsetHeight : Int) - 20) ≤ v ∧ v ≤ (pc.clientHeight : Int) - 20 ∧
      (proposedTop c e > (pc.clientHeight : Int) - 20 → v = (pc.clientHeight : Int) - 20) ∧
      (proposedTop c e < -((e.offsetHeight : Int) - 20) → v = -((e.offsetHeight : Int) - 20)) := by
  unfold onMouseMove proposedTop
  simp only [hdrag, hpc, Bool.not_true, Bool.false_eq_true, if_false]
  refine ⟨_, rfl, ?_⟩
  split_ifs <;> omega

/-- Witness for C2: `elementH = 40`, `containerH = 300`, proposed top `500`. -/
theorem vertical_clamp_witness :
    40 ≤ 40 + 300 ∧
    ∃ v : Int,
      (onMouseMove (Closure.pressedAt 0 500) Style.cleared
          (MouseMoveEvent.still (some ⟨800, 300⟩) 200 40)).top = CssValue.px v ∧
      -(((40 : Nat) : Int) - 20) ≤ v ∧ v ≤ ((300 : Nat) : Int) - 20 ∧
      (proposedTop (Closure.pressedAt 0 500) (MouseMoveEvent.still (some ⟨800, 300⟩) 200 40)
          > ((300 : Nat) : Int) - 20 → v = ((300 : Nat) : Int) - 20) ∧
      (proposedTop (Closure.pressedAt 0 500) (MouseMoveEvent.still (some ⟨800, 300⟩) 200 40)
          < -(((40 : Nat) : Int) - 20) → v = -(((40 : Nat) : Int) - 20)) :=
  ⟨by decide,
   vertical_clamp (Closure.pressedAt 0 500) Style.cleared
     (MouseMoveEvent.still (some ⟨800, 300⟩) 200 40) ⟨800, 300⟩ rfl rfl (by decide)⟩

/-- The two test vectors of the vertical property: proposed `500` is written as `280`
and proposed `-500` as `-20`. -/
theorem vertical_test_vectors :
    (onMouseMove (Closure.pressedAt 0 500) Style.cleared
        (MouseMoveEvent.still (some ⟨800, 300⟩) 200 40)).top = CssValue.px 280 ∧
    (onMouseMove (Closure.pressedAt 0 (-500)) Style.cleared
        (MouseMoveEvent.still (some ⟨800, 300⟩) 200 40)).top = CssValue.px (-20) := by
  decide

/-- C3, as stated, fails: with `elementW = 600 > containerW = 500` and proposed left
`0`, `onMouseMove` writes left `-100`, not `0`. -/
theorem strict_wider_element_not_flush_left :
    (600 : Nat) > 500 ∧
    (onMouseMove (Closure.pressedAt 0 0) Style.cleared
        (MouseMoveEvent.still (some ⟨500, 300⟩) 600 40)).left = CssValue.px (-100) ∧
    (onMouseMove (Closure.pressedAt 0 0) Style.cleared
        (MouseMoveEvent.still (some ⟨500, 300⟩) 600 40)).left ≠ CssValue.px 0 := by
  decide

/-- C3 (amended): in strict mode with `elementW > containerW`, for every proposed left
`onMouseMove` writes left `containerW - elementW`, a negative value: the element's
right edge coincides with the container's right edge. -/
theorem strict_wider_element_flush_right (c : Closure) (style : Style) (e : MouseMoveEvent)
    (pc : PlayerContainer) (hdrag : c.isDragging = true)
    (hpc : e.playerContainer = some pc) (hwide : e.offsetWidth > pc.clientWidth) :
    (onMouseMove c style e).left
        = CssValue.px ((pc.clientWidth : Int) - (e.offsetWidth : Int)) ∧
    (pc.clientWidth : Int) - (e.offsetWidth : Int) < 0 ∧
    ((pc.clientWidth : Int) - (e.offsetWidth : Int)) + (e.offsetWidth : Int)
        = (pc.clientWidth : Int) := by
  unfold onMouseMove
  simp only [hdrag, hpc, Bool.not_true, Bool.false_eq_true, if_false]
  refine ⟨?_, by omega, by omega⟩
  congr 1
  split_ifs <;> omega

/-- Witness for C3: `elementW = 600`, `containerW = 500`, proposed left `250`. -/
theorem strict_wider_element_flush_right_witness :
    (600 : Nat) > 500 ∧
    ((onMouseMove (Closure.pressedAt 250 0) Style.cleared
        (MouseMoveEvent.still (some ⟨500, 300⟩) 600 40)).left
        = CssValue.px (((500 : Nat) : Int) - ((600 : Nat) : Int)) ∧
     ((500 : Nat) : Int) - ((600 : Nat) : Int) < 0 ∧
     (((500 : Nat) : Int) - ((600 : Nat) : Int)) + ((600 : Nat) : Int)
        = ((500 : Nat) : Int)) :=
  ⟨by decide,
   strict_wider_element_flush_right (Closure.pressedAt 250 0) Style.cleared
     (MouseMoveEvent.still (some ⟨500, 300⟩) 600 40) ⟨500, 300⟩ rfl rfl (by decide)⟩

/-- C4: in strict mode with `elementW = containerW`, `onMouseMove` writes left `0` for
every proposed left. -/
theorem strict_equal_widths_left_zero (c : Closure) (style : Style) (e : MouseMoveEvent)
    (pc : PlayerContainer) (hdrag : c.isDragging = true)
    (hpc : e.playerContainer = some pc) (heq : e.offsetWidth = pc.clientWidth) :
    (onMouseMove c style e).left = CssValue.px 0 := by
  unfold onMouseMove
  simp only [hdrag, hpc, Bool.not_true, Bool.false_eq_true, if_false]
  congr 1
  split_ifs <;> omega

/-- Witness for C4: `elementW = containerW = 500`, proposed left `-37`. -/
theorem strict_equal_widths_left_zero_witness :
    (500 : Nat) = 500 ∧
    (onMouseMove (Closure.pressedAt (-37) 0) Style.cleared
        (MouseMoveEvent.still (some ⟨500, 300⟩) 500 40)).left = CssValue.px 0 :=
  ⟨rfl,
   strict_equal_widths_left_zero (Closure.pressedAt (-37) 0) Style.cleared
     (MouseMoveEvent.still (some ⟨500, 300⟩) 500 40) ⟨500, 300⟩ rfl rfl rfl⟩


/-- C5, as stated, fails: with a resolvable container of size `0 × 0`, an element of
size `200 × 40` and proposed `(123, 456)`, `onMouseMove` writes `(-200, -20)`, which
differs from what it writes when no container is available. -/
theorem zero_size_container_still_clamps :
    onMouseMove (Closure.pressedAt 123 456) Style.cleared
        (MouseMoveEvent.still (some ⟨0, 0⟩) 200 40)
      ≠ onMouseMove (Closure.pressedAt 123 456) Style.cleared
        (MouseMoveEvent.still none 200 40) ∧
    (onMouseMove (Closure.pressedAt 123 456) Style.cleared
        (MouseMoveEvent.still (some ⟨0, 0⟩) 200 40)).left = CssValue.px (-200) ∧
    (onMouseMove (Closure.pressedAt 123 456) Style.cleared
        (MouseMoveEvent.still (some ⟨0, 0⟩) 200 40)).top = CssValue.px (-20) := by
  decide

/-- C5 (amended): a resolvable container of width 0 and height 0 is clamped against
like any other: `onMouseMove` writes left `-elementW` whatever the proposed left, and
top `max (min proposedTop (-20)) (20 - elementH)`. -/
theorem zero_size_container_clamp (c : Closure) (style : Style) (e : MouseMoveEvent)
    (pc : PlayerContainer) (hdrag : c.isDragging = true)
    (hpc : e.playerContainer = some pc)
    (hw : pc.clientWidth = 0) (hh : pc.clientHeight = 0) :
    (onMouseMove c style e).left = CssValue.px (-(e.offsetWidth : Int)) ∧
    (onMouseMove c style e).top
        = CssValue.px (max (min (proposedTop c e) (-20)) (20 - (e.offsetHeight : Int))) := by
  unfold onMouseMove proposedTop
  simp only [hdrag, hpc, hw, hh, Bool.not_true, Bool.false_eq_true, if_false]
  constructor
  · congr 1
    split_ifs <;> omega
  · congr 1
    split_ifs <;> omega

/-- Witness for C5: container `0 × 0`, element `200 × 40`, proposed `(123, 456)`. -/
theorem zero_size_container_clamp_witness :
    ((0 : Nat) = 0 ∧ (0 : Nat) = 0) ∧
    ((onMouseMove (Closure.pressedAt 123 456) Style.cleared
        (MouseMoveEvent.still (some ⟨0, 0⟩) 200 40)).left
        = CssValue.px (-((200 : Nat) : Int)) ∧
     (onMouseMove (Closure.pressedAt 123 456) Style.cleared
        (MouseMoveEvent.still (some ⟨0, 0⟩) 200 40)).top
        = CssValue.px (max (min (proposedTop (Closure.pressedAt 123 456)
            (MouseMoveEvent.still (some ⟨0, 0⟩) 200 40)) (-20)) (20 - ((40 : Nat) : Int)))) :=
  ⟨⟨rfl, rfl⟩,
   zero_size_container_clamp (Closure.pressedAt 123 456) Style.cleared
     (MouseMoveEvent.still (some ⟨0, 0⟩) 200 40) ⟨0, 0⟩ rfl rfl rfl rfl⟩

/-- C6: with no resolvable bounds container, an active session's `onMouseMove` writes
left `initialElemLeft + deltaX` and top `initialElemTop + deltaY` unclamped, and
touches no other property. -/
theorem no_container_pass_through (c : Closure) (style : Style) (e : MouseMoveEvent)
    (hdrag : c.isDragging = true) (hpc : e.playerContainer = none) :
    onMouseMove c style e =
      { style with
        left := CssValue.px (c.initialElemLeft + (e.clientX - c.initialMouseX))
        top := CssValue.px (c.initialElemTop + (e.clientY - c.initialMouseY)) } := by
  unfold onMouseMove
  simp only [hdrag, hpc, Bool.not_true, Bool.false_eq_true, if_false]

/-- Witness for C6: anchor element `(100, 400)`, anchor pointer `(10, 10)`, pointer now
at `(33, 66)`: the proposed `(123, 456)` is written as such. -/
theorem no_container_pass_through_witness :
    onMouseMove
        { isDragging := true, initialMouseX := 10, initialMouseY := 10,
          initialElemLeft := 100, initialElemTop := 400,
          mousemoveRegistered := true, mouseupRegistered := true }
        Style.cleared
        { clientX := 33, clientY := 66, playerContainer := none,
          offsetWidth := 200, offsetHeight := 40 }
      = { Style.cleared with left := CssValue.px 123, top := CssValue.px 456 } :=
  no_container_pass_through
    { isDragging := true, initialMouseX := 10, initialMouseY := 10,
      initialElemLeft := 100, initialElemTop := 400,
      mousemoveRegistered := true, mouseupRegistered := true }
    Style.cleared
    { clientX := 33, clientY := 66, playerContainer := none,
      offsetWidth := 200, offsetHeight := 40 }
    rfl rfl


/-! ## The drag session as a state machine -/

theorem run_nil (el : Element) : run el [] = el := rfl

theorem run_cons (el : Element) (ev : Event) (events : List Event) :
    run el (ev :: events) = run (dispatch el ev) events := rfl

theorem run_append (el : Element) (xs ys : List Event) :
    run el (xs ++ ys) = run (run el xs) ys := by
  simp [run, List.foldl_append]

/-- No event changes the attached flag. -/
theorem dispatch_isDraggable (el : Element) (ev : Event) :
    (dispatch el ev).isDraggable = el.isDraggable := by
  cases ev <;> simp only [dispatch] <;> split <;> try split
  all_goals rfl

theorem run_isDraggable (events : List Event) (el : Element) :
    (run el events).isDraggable = el.isDraggable := by
  induction events generalizing el with
  | nil => rfl
  | cons ev rest ih => rw [run_cons, ih, dispatch_isDraggable]

/-- A call on an element whose flag is truthy returns it untouched. -/
theorem makeSubtitleDraggable_of_truthy (el : Element) (h : truthy el.isDraggable = true) :
    makeSubtitleDraggable el = el := by
  simp [makeSubtitleDraggable, h]

/-- After a call the flag is truthy. -/
theorem truthy_makeSubtitleDraggable (el : Element) :
    truthy (makeSubtitleDraggable el).isDraggable = true := by
  unfold makeSubtitleDraggable
  split
  · assumption
  · show truthy (some "true") = true
    decide

/-- The registration invariant of a closure: `onMouseMove` is on the document only
while `isDragging` is set and `onMouseUp` is registered with it. -/
theorem dispatch_keeps_registration (el : Element) (ev : Event) (isOpen : Bool)
    (hreg : ∀ c, el.onmousedown = some c → c.mousemoveRegistered = true →
      c.isDragging = true ∧ c.mouseupRegistered = true ∧ isOpen = true) :
    ∀ c, (dispatch el ev).onmousedown = some c → c.mousemoveRegistered = true →
      c.isDragging = true ∧ c.mouseupRegistered = true ∧ sessionStep isOpen ev = true := by
  intro c hc hm
  rcases el with ⟨flag, style, _ | c0⟩
  · cases ev <;> simp [dispatch] at hc
  · have h0 := hreg c0 rfl
    cases ev with
    | mousedown e =>
      simp only [dispatch, onmousedown] at hc
      by_cases hb : e.button = 0
      · rcases hp : e.offsetParent with _ | parentRect
        · simp [hb, hp] at hc
          subst hc
          simp at hm
          simp [sessionStep, hb, h0 hm]
        · simp [hb, hp] at hc
          subst hc
          simp [sessionStep, hb]
      · simp [hb] at hc
        subst hc
        simp [sessionStep, hb, h0 hm]
    | mousemove e =>
      simp only [dispatch] at hc
      split at hc <;> simp at hc <;> subst hc <;> simpa [sessionStep] using h0 hm
    | mouseup =>
      simp only [dispatch] at hc
      by_cases hu : c0.mouseupRegistered = true
      · simp [hu, onMouseUp] at hc
        by_cases hd : c0.isDragging = true
        · simp [hd] at hc
          subst hc
          simp at hm
        · simp [hd] at hc
          subst hc
          exact absurd (h0 hm).1 hd
      · simp [hu] at hc
        subst hc
        exact absurd (h0 hm).2.1 hu

theorem run_keeps_registration (events : List Event) (el : Element) (isOpen : Bool)
    (hreg : ∀ c, el.onmousedown = some c → c.mousemoveRegistered = true →
      c.isDragging = true ∧ c.mouseupRegistered = true ∧ isOpen = true) :
    ∀ c, (run el events).onmousedown = some c → c.mousemoveRegistered = true →
      c.isDragging = true ∧ c.mouseupRegistered = true ∧
        events.foldl sessionStep isOpen = true := by
  induction events generalizing el isOpen with
  | nil => simpa [run] using hreg
  | cons ev rest ih =>
    rw [run_cons, List.foldl_cons]
    exact ih _ _ (dispatch_keeps_registration el ev isOpen hreg)

/-- Right after attachment to an element without a press handler nothing is registered. -/
theorem attached_not_registered (el : Element) (h : el.onmousedown = none) :
    ∀ c, (makeSubtitleDraggable el).onmousedown = some c → c.mousemoveRegistered = true →
      c.isDragging = true ∧ c.mouseupRegistered = true ∧ false = true := by
  intro c hc hm
  unfold makeSubtitleDraggable at hc
  split at hc
  · rw [h] at hc
    cases hc
  · simp at hc
    subst hc
    simp [Closure.fresh] at hm

/-- A move dispatched twice in a row leaves what the second one alone leaves. -/
theorem dispatch_mousemove_absorbs (el : Element) (e₁ e₂ : MouseMoveEvent) :
    dispatch (dispatch el (Event.mousemove e₁)) (Event.mousemove e₂)
      = dispatch el (Event.mousemove e₂) := by
  rcases el with ⟨flag, style, _ | c⟩
  · rfl
  · simp only [dispatch]
    by_cases hm : c.mousemoveRegistered = true
    · simp only [hm, if_true]
      by_cases hd : c.isDragging = true
      · simp [onMouseMove, hd]
      · simp [onMouseMove, hd]
    · simp [hm]

theorem run_moves_then_move (earlier : List MouseMoveEvent) (el : Element)
    (last : MouseMoveEvent) :
    run el (earlier.map Event.mousemove ++ [Event.mousemove last])
      = dispatch el (Event.mousemove last) := by
  induction earlier generalizing el with
  | nil => rfl
  | cons e rest ih =>
    rw [List.map_cons, List.cons_append, run_cons, ih, dispatch_mousemove_absorbs]


/-- While every press finds an offset parent, the three flags of the closure move
together and follow the history reading step by step. -/
theorem dispatch_tracks_history (el : Element) (ev : Event) (isOpen : Bool) (c : Closure)
    (hc : el.onmousedown = some c)
    (hflags : c.isDragging = isOpen ∧ c.mousemoveRegistered = isOpen ∧
      c.mouseupRegistered = isOpen)
    (hparent : ∀ e, ev = Event.mousedown e → e.offsetParent ≠ none) :
    ∃ c', (dispatch el ev).onmousedown = some c' ∧
      c'.isDragging = sessionStep isOpen ev ∧
      c'.mousemoveRegistered = sessionStep isOpen ev ∧
      c'.mouseupRegistered = sessionStep isOpen ev := by
  obtain ⟨hd, hm, hu⟩ := hflags
  cases ev with
  | mousedown e =>
    have hp := hparent e rfl
    rcases hpe : e.offsetParent with _ | parentRect
    · exact absurd hpe hp
    · by_cases hb : e.button = 0
      · simp [dispatch, hc, onmousedown, hb, hpe, sessionStep]
      · simp [dispatch, hc, onmousedown, hb, sessionStep, hd, hm, hu]
  | mousemove e =>
    cases isOpen <;> simp [dispatch, hc, sessionStep, hd, hm, hu]
  | mouseup =>
    cases isOpen <;> simp [dispatch, hc, sessionStep, onMouseUp, hd, hm, hu]

theorem run_tracks_history (events : List Event) (el : Element) (isOpen : Bool) (c : Closure)
    (hc : el.onmousedown = some c)
    (hflags : c.isDragging = isOpen ∧ c.mousemoveRegistered = isOpen ∧
      c.mouseupRegistered = isOpen)
    (hparent : ∀ ev ∈ events, ∀ e, ev = Event.mousedown e → e.offsetParent ≠ none) :
    sessionActive (run el events) = events.foldl sessionStep isOpen := by
  induction events generalizing el isOpen c with
  | nil =>
    obtain ⟨hd, hm, _⟩ := hflags
    cases isOpen <;> simp [run, sessionActive, hc, hd, hm]
  | cons ev rest ih =>
    obtain ⟨c', hc', hflags'⟩ :=
      dispatch_tracks_history el ev isOpen c hc hflags
        (hparent ev (List.mem_cons_self ev rest))
    rw [run_cons, List.foldl_cons]
    exact ih _ _ c' hc' hflags'
      (fun ev' hmem => hparent ev' (List.mem_cons_of_mem ev hmem))

/-- On a newly attached element, while every press finds an offset parent, the session
handles moves exactly when a primary-button press is pending. -/
theorem sessionActive_eq_sessionOpen (el : Element) (events : List Event)
    (hflag : truthy el.isDraggable = false)
    (hparent : ∀ ev ∈ events, ∀ e, ev = Event.mousedown e → e.offsetParent ≠ none) :
    sessionActive (run (makeSubtitleDraggable el) events) = sessionOpen events := by
  have hc : (makeSubtitleDraggable el).onmousedown = some Closure.fresh := by
    simp [makeSubtitleDraggable, hflag]
  exact run_tracks_history events _ false Closure.fresh hc ⟨rfl, rfl, rfl⟩ hparent

/-- A press whose `offsetParent` is `null` sets `isDragging` without registering the
document listeners: the following release is not handled and the moves are not either. -/
theorem press_without_offsetParent :
    (run (makeSubtitleDraggable (Element.untouched Style.cleared))
        [Event.mousedown { MouseDownEvent.primary 5 5 100 400 with offsetParent := none },
         Event.mouseup]).onmousedown
      = some { Closure.fresh with isDragging := true, initialMouseX := 5, initialMouseY := 5 } ∧
    (run (makeSubtitleDraggable (Element.untouched Style.cleared))
        [Event.mousedown { MouseDownEvent.primary 5 5 100 400 with offsetParent := none },
         Event.mouseup,
         Event.mousemove ⟨905, 105, some ⟨800, 300⟩, 200, 40⟩]).style = Style.cleared := by
  decide

/-! ## Reset, stray moves, attachment and dropped moves -/

/-- C7: whatever element state a finite sequence of press, move and release events
produced, `resetSubtitlePosition` on a present element leaves its inline left, top,
transform and bottom all unset and nothing else changed; on an absent element it
changes nothing. -/
theorem reset_clears_all_four (el : Element) (events : List Event) :
    resetSubtitlePosition (some (run el events))
      = some { run el events with
               style := { left := CssValue.unset, top := CssValue.unset,
                          transform := CssValue.unset, bottom := CssValue.unset } } ∧
    resetSubtitlePosition none = none :=
  ⟨rfl, rfl⟩

/-- C8: for an element attached by `makeSubtitleDraggable`, after any event sequence
the session handles moves only if a primary-button press happened with no release
after it; when no such press is pending (before any press, after a release, after
only non-primary presses) a move event leaves the element, its inline style included,
unchanged; and `onMouseMove` itself returns the style untouched while `isDragging` is
false. -/
theorem move_without_session_is_noop (el : Element) (events : List Event)
    (e : MouseMoveEvent) (hfresh : el.onmousedown = none) :
    (sessionActive (run (makeSubtitleDraggable el) events) = true →
      sessionOpen events = true) ∧
    (sessionOpen events = false →
      dispatch (run (makeSubtitleDraggable el) events) (Event.mousemove e)
        = run (makeSubtitleDraggable el) events) ∧
    (∀ (c : Closure) (style : Style), c.isDragging = false → onMouseMove c style e = style) := by
  have hinv := run_keeps_registration events (makeSubtitleDraggable el) false
    (attached_not_registered el hfresh)
  refine ⟨?_, ?_, ?_⟩
  · intro hact
    unfold sessionActive at hact
    split at hact
    · next c hc =>
      simp only [Bool.and_eq_true] at hact
      exact (hinv c hc hact.2).2.2
    · cases hact
  · intro hclosed
    simp only [dispatch]
    split
    · next c hc =>
      by_cases hm : c.mousemoveRegistered = true
      · have hopen := (hinv c hc hm).2.2
        unfold sessionOpen at hclosed
        rw [hclosed] at hopen
        cases hopen
      · simp [hm]
    · rfl
  · intro c style hd
    simp [onMouseMove, hd]

/-- Witness for C8: after a secondary-button press, a primary-button press, a move and
a release, a further move changes nothing. -/
theorem move_without_session_is_noop_witness :
    (Element.untouched Style.cleared).onmousedown = none ∧
    sessionOpen
      [Event.mousedown { MouseDownEvent.primary 5 5 100 400 with button := 2 },
       Event.mousedown (MouseDownEvent.primary 5 5 100 400),
       Event.mousemove (MouseMoveEvent.still (some ⟨800, 300⟩) 200 40),
       Event.mouseup] = false ∧
    dispatch
        (run (makeSubtitleDraggable (Element.untouched Style.cleared))
          [Event.mousedown { MouseDownEvent.primary 5 5 100 400 with button := 2 },
           Event.mousedown (MouseDownEvent.primary 5 5 100 400),
           Event.mousemove (MouseMoveEvent.still (some ⟨800, 300⟩) 200 40),
           Event.mouseup])
        (Event.mousemove (MouseMoveEvent.still none 200 40))
      = run (makeSubtitleDraggable (Element.untouched Style.cleared))
          [Event.mousedown { MouseDownEvent.primary 5 5 100 400 with button := 2 },
           Event.mousedown (MouseDownEvent.primary 5 5 100 400),
           Event.mousemove (MouseMoveEvent.still (some ⟨800, 300⟩) 200 40),
           Event.mouseup] :=
  ⟨rfl, by decide,
   (move_without_session_is_noop (Element.untouched Style.cleared)
      [Event.mousedown { MouseDownEvent.primary 5 5 100 400 with button := 2 },
       Event.mousedown (MouseDownEvent.primary 5 5 100 400),
       Event.mousemove (MouseMoveEvent.still (some ⟨800, 300⟩) 200 40),
       Event.mouseup]
      (MouseMoveEvent.still none 200 40) rfl).2.1 (by decide)⟩

/-- C9: calling `makeSubtitleDraggable` `N ≥ 1` times on an element equals calling it
once; afterwards the attached flag is truthy; on an element whose flag was not set
the one call sets it to the string `true` and installs one press handler with fresh
closure variables; and a further call after any event sequence, an in-progress drag
included, changes nothing. -/
theorem attach_idempotent (el : Element) (n : Nat) (hn : 1 ≤ n) :
    Nat.iterate makeSubtitleDraggable n el = makeSubtitleDraggable el ∧
    truthy (makeSubtitleDraggable el).isDraggable = true ∧
    (truthy el.isDraggable = false →
      (makeSubtitleDraggable el).isDraggable = some "true" ∧
      (makeSubtitleDraggable el).onmousedown = some Closure.fresh ∧
      (makeSubtitleDraggable el).style = el.style) ∧
    (∀ events : List Event,
      makeSubtitleDraggable (run (makeSubtitleDraggable el) events)
        = run (makeSubtitleDraggable el) events) := by
  refine ⟨?_, truthy_makeSubtitleDraggable el, ?_, ?_⟩
  · obtain ⟨k, rfl⟩ : ∃ k, n = k + 1 := ⟨n - 1, by omega⟩
    clear hn
    induction k with
    | zero => rfl
    | succ k ih =>
      rw [Function.iterate_succ_apply', ih]
      exact makeSubtitleDraggable_of_truthy _ (truthy_makeSubtitleDraggable el)
  · intro hflag
    simp [makeSubtitleDraggable, hflag]
  · intro events
    apply makeSubtitleDraggable_of_truthy
    rw [run_isDraggable]
    exact truthy_makeSubtitleDraggable el

/-- Witness for C9: three calls on an untouched element. -/
theorem attach_idempotent_witness :
    1 ≤ 3 ∧
    (Nat.iterate makeSubtitleDraggable 3 (Element.untouched Style.cleared)
        = makeSubtitleDraggable (Element.untouched Style.cleared) ∧
     truthy (makeSubtitleDraggable (Element.untouched Style.cleared)).isDraggable = true ∧
     (truthy (Element.untouched Style.cleared).isDraggable = false →
       (makeSubtitleDraggable (Element.untouched Style.cleared)).isDraggable = some "true" ∧
       (makeSubtitleDraggable (Element.untouched Style.cleared)).onmousedown
          = some Closure.fresh ∧
       (makeSubtitleDraggable (Element.untouched Style.cleared)).style
          = (Element.untouched Style.cleared).style) ∧
     (∀ events : List Event,
       makeSubtitleDraggable
          (run (makeSubtitleDraggable (Element.untouched Style.cleared)) events)
         = run (makeSubtitleDraggable (Element.untouched Style.cleared)) events)) :=
  ⟨by decide, attach_idempotent (Element.untouched Style.cleared) 3 (by decide)⟩

/-- C10: a press followed by any moves and then a last move leaves the element in the
state that the press followed by the last move alone leaves; and the left and top an
active session's `onMouseMove` writes do not depend on the style found, only on the
closure's anchors and the event's pointer position, container and sizes. -/
theorem dropped_moves_are_harmless (el : Element) (press : MouseDownEvent)
    (earlier : List MouseMoveEvent) (last : MouseMoveEvent) :
    run el (Event.mousedown press :: (earlier.map Event.mousemove ++ [Event.mousemove last]))
      = run el [Event.mousedown press, Event.mousemove last] ∧
    (∀ (c : Closure) (style₁ style₂ : Style), c.isDragging = true →
      (onMouseMove c style₁ last).left = (onMouseMove c style₂ last).left ∧
      (onMouseMove c style₁ last).top = (onMouseMove c style₂ last).top) := by
  constructor
  · rw [run_cons, run_moves_then_move]
    rfl
  · intro c style₁ style₂ hd
    simp [onMouseMove, hd]

/-- A concrete session: press at pointer `(5, 5)` with the element at `(100, 400)`,
then moves to `(0, 0)` and `(905, 105)` inside an `800 × 300` container; the element of
size `200 × 40` ends at `(750, 280)`, exactly as when the first move is dropped. -/
theorem dropped_moves_example :
    (run (makeSubtitleDraggable (Element.untouched Style.cleared))
        [Event.mousedown (MouseDownEvent.primary 5 5 100 400),
         Event.mousemove (MouseMoveEvent.still (some ⟨800, 300⟩) 200 40),
         Event.mousemove ⟨905, 105, some ⟨800, 300⟩, 200, 40⟩]).style
      = { left := CssValue.px 750, top := CssValue.px 280,
          transform := CssValue.keyword "none", bottom := CssValue.keyword "auto" } ∧
    (run (makeSubtitleDraggable (Element.untouched Style.cleared))
        [Event.mousedown (MouseDownEvent.primary 5 5 100 400),
         Event.mousemove ⟨905, 105, some ⟨800, 300⟩, 200, 40⟩]).style
      = { left := CssValue.px 750, top := CssValue.px 280,
          transform := CssValue.keyword "none", bottom := CssValue.keyword "auto" } := by
  decide

end SubtitleDrag
